import Mathlib

/-!
# docker-machine-driver-kubevirt: the driver's lifecycle methods

A shallow embedding of `driver/driver.go` and `driver/vm.go`.

* Go strings are `String`, Go `int` is `Int`, `uint32(x)` is `x % 2^32`, a nilable pointer is
  an `Option`, an `error` is an `Option GoError` (`none` is `nil`).
* The Kubernetes / KubeVirt API server, the file system and the key generator are an
  environment `Env`: every call is appended to a chronological trace of `Event`s and its
  answer is a function of the trace up to and including the call, so an environment can
  script any sequence of answers.
* The driver's cached client handle `d.c` is the Boolean field `Driver.c`; every method
  returns the driver it leaves behind together with the extended trace.
-/

namespace KubevirtDriver

/-! ## Errors -/

/-- Go `error` values: `errors.New` / `fmt.Errorf` without `%w`, an API status error carrying
its reason and HTTP code, and `fmt.Errorf("<msg>%w", inner)`. -/
inductive GoError where
  | new (msg : String)
  | status (reason : String) (code : Int) (msg : String)
  | wrap (msg : String) (inner : GoError)
deriving DecidableEq, Repr

/-- The constant `metav1.StatusReasonNotFound`. -/
def StatusReasonNotFound : String := "NotFound"

/-- The constant `metav1.StatusReasonUnknown`. -/
def StatusReasonUnknown : String := ""

/-- The keys of the apimachinery table `knownReasons`. -/
def knownReasons : List String :=
  ["Unauthorized", "Forbidden", "NotFound", "AlreadyExists", "Conflict", "Gone", "Invalid",
    "ServerTimeout", "Timeout", "TooManyRequests", "BadRequest", "MethodNotAllowed",
    "NotAcceptable", "RequestEntityTooLarge", "UnsupportedMediaType", "InternalError",
    "Expired", "ServiceUnavailable"]

/-- The apimachinery helper `reasonAndCodeForError`: the reason and code of the (possibly
wrapped) status error, and the unknown reason with code 0 for any other error. -/
def reasonAndCodeForError : GoError → String × Int
  | .new _ => (StatusReasonUnknown, 0)
  | .status reason code _ => (reason, code)
  | .wrap _ inner => reasonAndCodeForError inner

/-- The `apierrors.IsNotFound` predicate on a non-nil error: the reason is `NotFound`, or the
reason is not a known one and the code is 404. -/
def IsNotFound (err : GoError) : Bool :=
  if (reasonAndCodeForError err).1 = StatusReasonNotFound then true
  else if ¬ (reasonAndCodeForError err).1 ∈ knownReasons
      ∧ (reasonAndCodeForError err).2 = 404 then true
  else false

/-- The `apierrors.IsNotFound` predicate on an `error` that may be nil. -/
def IsNotFoundErr : Option GoError → Bool
  | none => false
  | some e => IsNotFound e

/-! ## libmachine `state.State` -/

/-- The `state.State` enumeration of libmachine, in declaration order. -/
inductive State where
  | None | Running | Paused | Saved | Stopped | Stopping | Starting | Error | Timeout
deriving DecidableEq, Repr

/-- The libmachine error `drivers.ErrHostIsNotRunning`. -/
def ErrHostIsNotRunning : GoError := .new "Host is not running"

/-! ## KubeVirt constants -/

def VirtualMachineStatusStopped : String := "Stopped"
def VirtualMachineStatusProvisioning : String := "Provisioning"
def VirtualMachineStatusStarting : String := "Starting"
def VirtualMachineStatusRunning : String := "Running"
def VirtualMachineStatusPaused : String := "Paused"
def VirtualMachineStatusStopping : String := "Stopping"
def VirtualMachineStatusTerminating : String := "Terminating"
def VirtualMachineStatusCrashLoopBackOff : String := "CrashLoopBackOff"
def VirtualMachineStatusMigrating : String := "Migrating"
def VirtualMachineStatusUnknown : String := "Unknown"
def VirtualMachineStatusUnschedulable : String := "ErrorUnschedulable"
def VirtualMachineStatusErrImagePull : String := "ErrImagePull"
def VirtualMachineStatusImagePullBackOff : String := "ImagePullBackOff"
def VirtualMachineStatusPvcNotFound : String := "ErrorPvcNotFound"
def VirtualMachineStatusDataVolumeError : String := "DataVolumeError"
def VirtualMachineStatusWaitingForVolumeBinding : String := "WaitingForVolumeBinding"

def RunStrategyRerunOnFailure : String := "RerunOnFailure"

/-- The core/v1 resource name `corev1.ResourceMemory`. -/
def ResourceMemory : String := "memory"

/-! ## Constants of `driver.go` -/

def isoFilename : String := "boot2docker.iso"
def defaultUser : String := "root"
def defaultImage : String := "linkacloud/d2vm-docker-machine:alpine"
def defaultNamespace : String := "default"

/-! ## Kubernetes / KubeVirt objects (the fields the driver reads or writes) -/

/-- A `resource.Quantity`, identified by its canonical string. -/
structure Quantity where
  s : String
deriving DecidableEq, Repr

structure ObjectMeta where
  Name : String := ""
  Namespace : String := ""
  Labels : List (String × String) := []
deriving DecidableEq, Repr

/-- A `corev1.Secret`; `Data` maps keys to byte strings. -/
structure Secret where
  ObjectMeta : ObjectMeta := {}
  Data : List (String × String) := []
deriving DecidableEq, Repr

structure AccessCredentialSecretSource where
  SecretName : String
deriving DecidableEq, Repr

structure SSHPublicKeyAccessCredentialSource where
  Secret : Option AccessCredentialSecretSource := none
deriving DecidableEq, Repr

structure QemuGuestAgentSSHPublicKeyAccessCredentialPropagation where
  Users : List String
deriving DecidableEq, Repr

structure SSHPublicKeyAccessCredentialPropagationMethod where
  QemuGuestAgent : Option QemuGuestAgentSSHPublicKeyAccessCredentialPropagation := none
deriving DecidableEq, Repr

structure SSHPublicKeyAccessCredential where
  Source : SSHPublicKeyAccessCredentialSource := {}
  PropagationMethod : SSHPublicKeyAccessCredentialPropagationMethod := {}
deriving DecidableEq, Repr

structure AccessCredential where
  SSHPublicKey : Option SSHPublicKeyAccessCredential := none
deriving DecidableEq, Repr

structure CPU where
  Cores : Nat := 0
  Model : String := ""
deriving DecidableEq, Repr

structure ResourceRequirements where
  Requests : List (String × Quantity) := []
deriving DecidableEq, Repr

structure DiskTarget where
  Bus : String := ""
deriving DecidableEq, Repr

structure DiskDevice where
  Disk : Option DiskTarget := none
deriving DecidableEq, Repr

structure Disk where
  Name : String
  DiskDevice : DiskDevice := {}
deriving DecidableEq, Repr

structure InterfaceMasquerade where
deriving DecidableEq, Repr

structure InterfaceBindingMethod where
  Masquerade : Option InterfaceMasquerade := none
deriving DecidableEq, Repr

structure Interface where
  Name : String
  InterfaceBindingMethod : InterfaceBindingMethod := {}
deriving DecidableEq, Repr

structure Rng where
deriving DecidableEq, Repr

structure Devices where
  AutoattachGraphicsDevice : Option Bool := none
  Rng : Option Rng := none
  Disks : List Disk := []
  Interfaces : List Interface := []
deriving DecidableEq, Repr

structure DomainSpec where
  CPU : Option CPU := none
  Resources : ResourceRequirements := {}
  Devices : Devices := {}
deriving DecidableEq, Repr

structure PodNetwork where
deriving DecidableEq, Repr

structure NetworkSource where
  Pod : Option PodNetwork := none
deriving DecidableEq, Repr

structure Network where
  Name : String
  NetworkSource : NetworkSource := {}
deriving DecidableEq, Repr

structure ContainerDiskSource where
  Image : String
deriving DecidableEq, Repr

structure VolumeSource where
  ContainerDisk : Option ContainerDiskSource := none
deriving DecidableEq, Repr

structure Volume where
  Name : String
  VolumeSource : VolumeSource := {}
deriving DecidableEq, Repr

structure VirtualMachineInstanceSpec where
  Hostname : String := ""
  AccessCredentials : List AccessCredential := []
  Domain : DomainSpec := {}
  Networks : List Network := []
  Volumes : List Volume := []
deriving DecidableEq, Repr

structure VirtualMachineInstanceTemplateSpec where
  ObjectMeta : ObjectMeta := {}
  Spec : VirtualMachineInstanceSpec := {}
deriving DecidableEq, Repr

structure VirtualMachineSpec where
  RunStrategy : Option String := none
  Template : Option VirtualMachineInstanceTemplateSpec := none
deriving DecidableEq, Repr

structure VirtualMachineStatus where
  PrintableStatus : String := ""
deriving DecidableEq, Repr

structure VirtualMachine where
  ObjectMeta : ObjectMeta := {}
  Spec : VirtualMachineSpec := {}
  Status : VirtualMachineStatus := {}
deriving DecidableEq, Repr

structure VirtualMachineInstanceNetworkInterface where
  IP : String := ""
deriving DecidableEq, Repr

structure VirtualMachineInstanceStatus where
  Interfaces : List VirtualMachineInstanceNetworkInterface := []
deriving DecidableEq, Repr

structure VirtualMachineInstance where
  ObjectMeta : ObjectMeta := {}
  Status : VirtualMachineInstanceStatus := {}
deriving DecidableEq, Repr

/-! ## `vm.go` -/

/-- The generic helper `P`: a pointer to its argument. -/
def P {T : Type} (v : T) : Option T := some v

def sshSecretName (name : String) : String :=
  name ++ "-ssh"

def makeSSHSecret (namespace_ name pubkey : String) : Secret :=
  { ObjectMeta := { Name := sshSecretName name, Namespace := namespace_ }
    Data := [("authorized_keys", pubkey)] }

def makeVM (namespace_ name image : String) (cpus : Nat) (mem : Quantity) : VirtualMachine :=
  { ObjectMeta := { Name := name, Namespace := namespace_ }
    Spec :=
      { RunStrategy := P RunStrategyRerunOnFailure
        Template := some
          { ObjectMeta := { Labels := [("kubevirt.io/domain", name)] }
            Spec :=
              { Hostname := name
                AccessCredentials :=
                  [{ SSHPublicKey := some
                      { Source := { Secret := some { SecretName := sshSecretName name } }
                        PropagationMethod :=
                          { QemuGuestAgent := some { Users := [defaultUser] } } } }]
                Domain :=
                  { CPU := some { Cores := cpus, Model := "host-passthrough" }
                    Resources := { Requests := [(ResourceMemory, mem)] }
                    Devices :=
                      { AutoattachGraphicsDevice := P false
                        Rng := some {}
                        Disks := [{ Name := defaultUser, DiskDevice := { Disk := some { Bus := "virtio" } } }]
                        Interfaces :=
                          [{ Name := "default"
                             InterfaceBindingMethod := { Masquerade := some {} } }] } }
                Networks := [{ Name := "default", NetworkSource := { Pod := some {} } }]
                Volumes :=
                  [{ Name := "root"
                     VolumeSource := { ContainerDisk := some { Image := image } } }] } } } }

/-! ## The driver, the calls it issues and the environment answering them -/

/-- The `Driver` struct with the fields of the embedded `drivers.BaseDriver` it uses;
`c` tells whether the cached client handle `d.c` is non-nil. -/
structure Driver where
  MachineName : String
  StorePath : String := ""
  SSHKeyPath : String := ""
  Memory : Int := 0
  CPU : Int := 0
  Namespace : String := ""
  Image : String := ""
  KubeConfig : String := ""
  c : Bool := false
deriving DecidableEq, Repr

/-- One call leaving the driver: a Kubernetes / KubeVirt API request, or one of the two local
side effects of `Create` (key generation, reading the public key file). -/
inductive Event where
  | vmGet (ns name : String)
  | vmCreate (ns : String) (vm : VirtualMachine)
  | vmDelete (ns name : String)
  | vmStop (ns name : String) (gracePeriod : Option Int)
  | vmStart (ns name : String)
  | vmRestart (ns name : String)
  | vmiGet (ns name : String)
  | secretCreate (ns : String) (secret : Secret)
  | secretDelete (ns name : String)
  | GenerateSSHKey (path : String)
  | ReadFile (path : String)
deriving DecidableEq, Repr

/-- Whether the event is a request to the Kubernetes API server. -/
def Event.isAPICall : Event → Bool
  | .GenerateSSHKey _ => false
  | .ReadFile _ => false
  | _ => true

/-- Whether the event is a create or delete request. -/
def Event.isCreateOrDelete : Event → Bool
  | .vmCreate _ _ => true
  | .vmDelete _ _ => true
  | .secretCreate _ _ => true
  | .secretDelete _ _ => true
  | _ => false

/-- Whether the event is a request that changes the cluster. -/
def Event.isMutating : Event → Bool
  | .vmGet _ _ => false
  | .vmiGet _ _ => false
  | .GenerateSSHKey _ => false
  | .ReadFile _ => false
  | _ => true

/-- The number of API requests in a trace. -/
def apiCalls (tr : List Event) : Nat := (tr.filter Event.isAPICall).length

/-- A `rest.Config`. -/
structure RestConfig where
  Host : String := ""
deriving DecidableEq, Repr

/-- Everything outside the driver. The first block is the process environment consulted when
the client is built; `filepathJoin` and `ParseQuantity` are the library functions of these
names; the remaining fields answer a call from the trace that ends with it. -/
structure Env where
  homeKubeConfig : String
  stat : String → Bool
  BuildConfigFromFlags : String → Except GoError RestConfig
  InClusterConfig : Except GoError RestConfig
  GetKubevirtClientFromRESTConfig : RestConfig → Option GoError
  filepathJoin : List String → String
  ParseQuantity : String → Except GoError Quantity
  GenerateSSHKey : List Event → Option GoError
  ReadFile : List Event → Except GoError String
  vmGet : List Event → Except GoError VirtualMachine
  vmCreate : List Event → Option GoError
  vmDelete : List Event → Option GoError
  vmStop : List Event → Option GoError
  vmStart : List Event → Option GoError
  vmRestart : List Event → Option GoError
  vmiGet : List Event → Except GoError VirtualMachineInstance
  secretCreate : List Event → Option GoError
  secretDelete : List Event → Option GoError

/-- What a method leaves behind: its return value, the driver and the trace. -/
structure Ret (α : Type) where
  val : α
  d : Driver
  trace : List Event

/-- A Go result that may instead be a run-time panic. -/
inductive Outcome (α : Type) where
  | ret (v : α)
  | panic (msg : String)
deriving DecidableEq, Repr

/-- The conversion `uint32(x)` of a Go `int`. -/
def uint32 (x : Int) : Nat := (x % 4294967296).toNat

/-- The library function `net.JoinHostPort` of the Go releases that compile this package
(`vm.go` uses generics, so Go 1.18 or later): `[host]:port` when the host holds a colon, as a
literal IPv6 address does, and `host:port` otherwise. -/
def JoinHostPort (host port : String) : String :=
  if host.toList.any (fun ch => ch == ':') then "[" ++ host ++ "]:" ++ port
  else host ++ ":" ++ port

/-- The error part of a `(value, error)` answer. -/
def errOf {α : Type} : Except GoError α → Option GoError
  | .ok _ => none
  | .error e => some e

/-! ## `driver.go` -/

def flagName (name : String) : String :=
  "kubevirt-" ++ name

def New (hostName storePath : String) : Driver :=
  { MachineName := hostName, StorePath := storePath }

def loadKubeConfig (env : Env) (kubeconfigPath : String) : Except GoError RestConfig :=
  let kubeconfigPath := if kubeconfigPath = "" then env.homeKubeConfig else kubeconfigPath
  if env.stat kubeconfigPath then env.BuildConfigFromFlags kubeconfigPath
  else env.InClusterConfig

def client (env : Env) (d : Driver) : Option GoError × Driver :=
  if d.c then (none, d)
  else
    match loadKubeConfig env d.KubeConfig with
    | .error err => (some (.wrap "failed to load kubernetes config: " err), d)
    | .ok config =>
      match env.GetKubevirtClientFromRESTConfig config with
      | some err => (some (.wrap "failed to get kubevirt client: " err), { d with c := false })
      | none => (none, { d with c := true })

/-- The method `BaseDriver.ResolveStorePath`. -/
def ResolveStorePath (env : Env) (d : Driver) (file : String) : String :=
  env.filepathJoin [d.StorePath, "machines", d.MachineName, file]

/-- The method `BaseDriver.GetSSHKeyPath`, which fills in an empty `SSHKeyPath`. -/
def GetSSHKeyPath (env : Env) (d : Driver) : String × Driver :=
  if d.SSHKeyPath = "" then
    let d := { d with SSHKeyPath := ResolveStorePath env d "id_rsa" }
    (d.SSHKeyPath, d)
  else (d.SSHKeyPath, d)

def GetState (env : Env) (d : Driver) (tr : List Event) : Ret (State × Option GoError) :=
  match client env d with
  | (some err, d) => ⟨(State.None, some err), d, tr⟩
  | (none, d) =>
    let tr := tr ++ [Event.vmGet d.Namespace d.MachineName]
    match env.vmGet tr with
    | .error err =>
      if IsNotFound err then ⟨(State.None, none), d, tr⟩
      else ⟨(State.Error, some (.wrap "failed to get vm: " err)), d, tr⟩
    | .ok vm =>
      let s := vm.Status.PrintableStatus
      if s = VirtualMachineStatusProvisioning ∨ s = VirtualMachineStatusStarting
          ∨ s = VirtualMachineStatusWaitingForVolumeBinding then
        ⟨(State.Starting, none), d, tr⟩
      else if s = VirtualMachineStatusRunning ∨ s = VirtualMachineStatusMigrating then
        ⟨(State.Running, none), d, tr⟩
      else if s = VirtualMachineStatusPaused then
        ⟨(State.Paused, none), d, tr⟩
      else if s = VirtualMachineStatusStopping ∨ s = VirtualMachineStatusTerminating then
        ⟨(State.Stopping, none), d, tr⟩
      else if s = VirtualMachineStatusStopped then
        ⟨(State.Stopped, none), d, tr⟩
      else if s = VirtualMachineStatusCrashLoopBackOff ∨ s = VirtualMachineStatusUnknown
          ∨ s = VirtualMachineStatusUnschedulable ∨ s = VirtualMachineStatusErrImagePull
          ∨ s = VirtualMachineStatusImagePullBackOff ∨ s = VirtualMachineStatusPvcNotFound
          ∨ s = VirtualMachineStatusDataVolumeError then
        ⟨(State.Error, none), d, tr⟩
      else ⟨(State.None, none), d, tr⟩

/-- The libmachine helper `drivers.MustBeRunning`. -/
def MustBeRunning (env : Env) (d : Driver) (tr : List Event) : Ret (Option GoError) :=
  match GetState env d tr with
  | ⟨(_, some err), d, tr⟩ => ⟨some err, d, tr⟩
  | ⟨(s, none), d, tr⟩ =>
    if s ≠ State.Running then ⟨some ErrHostIsNotRunning, d, tr⟩ else ⟨none, d, tr⟩

def Create (env : Env) (d : Driver) (tr : List Event) : Ret (Option GoError) :=
  match client env d with
  | (some err, d) => ⟨some err, d, tr⟩
  | (none, d) =>
    let tr := tr ++ [Event.vmGet d.Namespace d.MachineName]
    let err := errOf (env.vmGet tr)
    if !IsNotFoundErr err then
      match err with
      | none =>
        ⟨some (.new ("vm " ++ d.MachineName ++ " already exists in namespace " ++ d.Namespace)),
          d, tr⟩
      | some err => ⟨some err, d, tr⟩
    else
      let (keyPath, d) := GetSSHKeyPath env d
      let tr := tr ++ [Event.GenerateSSHKey keyPath]
      match env.GenerateSSHKey tr with
      | some err => ⟨some err, d, tr⟩
      | none =>
        let (keyPath, d) := GetSSHKeyPath env d
        let tr := tr ++ [Event.ReadFile (keyPath ++ ".pub")]
        match env.ReadFile tr with
        | .error err => ⟨some err, d, tr⟩
        | .ok publicKey =>
          match env.ParseQuantity (toString d.Memory ++ "Mi") with
          | .error err => ⟨some (.wrap "failed to parse memory quantity: " err), d, tr⟩
          | .ok mem =>
            let tr := tr ++
              [Event.secretCreate d.Namespace (makeSSHSecret d.Namespace d.MachineName publicKey)]
            match env.secretCreate tr with
            | some err => ⟨some err, d, tr⟩
            | none =>
              let vm := makeVM d.Namespace d.MachineName d.Image (uint32 d.CPU) mem
              let tr := tr ++ [Event.vmCreate d.Namespace vm]
              match env.vmCreate tr with
              | some err =>
                -- the answer to the delete is only logged
                let tr := tr ++ [Event.secretDelete d.Namespace d.MachineName]
                ⟨some (.wrap "failed to create vm: " err), d, tr⟩
              | none => ⟨none, d, tr⟩

def GetSSHHostname (env : Env) (d : Driver) (tr : List Event) :
    Ret (Outcome (String × Option GoError)) :=
  match client env d with
  | (some err, d) => ⟨.ret ("", some err), d, tr⟩
  | (none, d) =>
    match MustBeRunning env d tr with
    | ⟨some err, d, tr⟩ => ⟨.ret ("", some err), d, tr⟩
    | ⟨none, d, tr⟩ =>
      let tr := tr ++ [Event.vmiGet d.Namespace d.MachineName]
      match env.vmiGet tr with
      | .error err => ⟨.ret ("", some err), d, tr⟩
      | .ok vm =>
        if vm.Status.Interfaces.length = 0 then
          ⟨.ret ("", some (.new ("no interfaces found for vm " ++ d.MachineName))), d, tr⟩
        else
          match vm.Status.Interfaces[0]? with
          | some i => ⟨.ret (i.IP, none), d, tr⟩
          | none => ⟨.panic "index out of range [0]", d, tr⟩

def GetURL (env : Env) (d : Driver) (tr : List Event) :
    Ret (Outcome (String × Option GoError)) :=
  match GetSSHHostname env d tr with
  | ⟨.panic msg, d, tr⟩ => ⟨.panic msg, d, tr⟩
  | ⟨.ret (_, some err), d, tr⟩ => ⟨.ret ("", some err), d, tr⟩
  | ⟨.ret (ip, none), d, tr⟩ => ⟨.ret ("tcp://" ++ JoinHostPort ip "2376", none), d, tr⟩

def GetIP (env : Env) (d : Driver) (tr : List Event) :
    Ret (Outcome (String × Option GoError)) :=
  GetSSHHostname env d tr

def Kill (env : Env) (d : Driver) (tr : List Event) : Ret (Option GoError) :=
  match client env d with
  | (some err, d) => ⟨some err, d, tr⟩
  | (none, d) =>
    let tr := tr ++ [Event.vmStop d.Namespace d.MachineName (P 0)]
    ⟨env.vmStop tr, d, tr⟩

def Remove (env : Env) (d : Driver) (tr : List Event) : Ret (Option GoError) :=
  match client env d with
  | (some err, d) => ⟨some err, d, tr⟩
  | (none, d) =>
    match GetState env d tr with
    | ⟨(_, some err), d, tr⟩ => ⟨some err, d, tr⟩
    | ⟨(s, none), d, tr⟩ =>
      let killed : Ret (Option GoError) :=
        if s = State.Running then Kill env d tr else ⟨none, d, tr⟩
      match killed with
      | ⟨some err, d, tr⟩ => ⟨some err, d, tr⟩
      | ⟨none, d, tr⟩ =>
        let tr := tr ++ [Event.vmDelete d.Namespace d.MachineName]
        let err := env.vmDelete tr
        if err ≠ none ∧ !IsNotFoundErr err then ⟨err, d, tr⟩
        else
          let tr := tr ++ [Event.secretDelete d.Namespace (sshSecretName d.MachineName)]
          let err := env.secretDelete tr
          if err ≠ none ∧ !IsNotFoundErr err then ⟨err, d, tr⟩
          else ⟨none, d, tr⟩

def Restart (env : Env) (d : Driver) (tr : List Event) : Ret (Option GoError) :=
  match client env d with
  | (some err, d) => ⟨some err, d, tr⟩
  | (none, d) =>
    let tr := tr ++ [Event.vmRestart d.Namespace d.MachineName]
    ⟨env.vmRestart tr, d, tr⟩

def Start (env : Env) (d : Driver) (tr : List Event) : Ret (Option GoError) :=
  match client env d with
  | (some err, d) => ⟨some err, d, tr⟩
  | (none, d) =>
    let tr := tr ++ [Event.vmStart d.Namespace d.MachineName]
    ⟨env.vmStart tr, d, tr⟩

def Stop (env : Env) (d : Driver) (tr : List Event) : Ret (Option GoError) :=
  match client env d with
  | (some err, d) => ⟨some err, d, tr⟩
  | (none, d) =>
    let tr := tr ++ [Event.vmStop d.Namespace d.MachineName (P 0)]
    ⟨env.vmStop tr, d, tr⟩

def DriverName (_d : Driver) : String := "kubevirt"

/-! ## Scripted environments used to run the methods on concrete inputs -/

/-- An environment in which the client can be built and every call succeeds; a lookup of a
VirtualMachine answers `vm` and a lookup of a VirtualMachineInstance answers `vmi`. -/
def envOk (vm : Except GoError VirtualMachine) (vmi : Except GoError VirtualMachineInstance) :
    Env where
  homeKubeConfig := "/root/.kube/config"
  stat := fun _ => true
  BuildConfigFromFlags := fun _ => .ok {}
  InClusterConfig := .ok {}
  GetKubevirtClientFromRESTConfig := fun _ => none
  filepathJoin := fun xs => "/".intercalate xs
  ParseQuantity := fun s => .ok ⟨s⟩
  GenerateSSHKey := fun _ => none
  ReadFile := fun _ => .ok "ssh-rsa AAAA"
  vmGet := fun _ => vm
  vmCreate := fun _ => none
  vmDelete := fun _ => none
  vmStop := fun _ => none
  vmStart := fun _ => none
  vmRestart := fun _ => none
  vmiGet := fun _ => vmi
  secretCreate := fun _ => none
  secretDelete := fun _ => none

/-- The API server's answer for an object that does not exist. -/
def errNotFound : GoError := .status "NotFound" 404 "not found"

/-- The API server's answer to a request it rejects. -/
def errForbidden : GoError := .status "Forbidden" 403 "forbidden"

/-- A driver for machine `m` in namespace `default`. -/
def drv : Driver :=
  { MachineName := "m", StorePath := "/s", Memory := 1024, CPU := 1, Namespace := "default",
    Image := defaultImage }

/-- A VirtualMachine whose printable status is `s`. -/
def vmWithStatus (s : String) : VirtualMachine := { Status := { PrintableStatus := s } }

/-- The calls issued by an invocation that started with trace `tr` and returned `r`. -/
def issued {α : Type} (tr : List Event) (r : Ret α) : List Event :=
  r.trace.drop tr.length

/-- No machine `m` exists yet, and the API server rejects the creation of a VirtualMachine. -/
def envCreateFails : Env :=
  { envOk (.error errNotFound) (.ok {}) with vmCreate := fun _ => some errForbidden }

/-- The machine `m` exists and is running; every call succeeds. -/
def envRunning : Env :=
  envOk (.ok (vmWithStatus VirtualMachineStatusRunning)) (.ok { Status := { Interfaces := [⟨"10.0.0.7"⟩] } })

/-- An answer to a delete that is nil or NotFound. -/
def okOrNotFound : Option GoError → Bool
  | none => true
  | some e => IsNotFound e

/-- The machine `m` is running and its first interface reports an address with a percent
sign and no colon. -/
def envPercent : Env :=
  envOk (.ok (vmWithStatus VirtualMachineStatusRunning))
    (.ok { Status := { Interfaces := [⟨"10.0.0.7%eth0"⟩] } })

/-- The machine `m` is running and the API server rejects the request to stop it. -/
def envStopFails : Env :=
  { envRunning with vmStop := fun _ => some errForbidden }

/-- Neither the VirtualMachine `m` nor its Secret exists: every lookup and delete answers
NotFound. -/
def envAbsent : Env :=
  { envOk (.error errNotFound) (.error errNotFound) with
    vmDelete := fun _ => some errNotFound
    secretDelete := fun _ => some errNotFound }

/-! ## The client handle -/

theorem client_cached (env : Env) (d : Driver) (h : d.c = true) : client env d = (none, d) := by
  simp [client, h]

theorem client_ok (env : Env) (d : Driver) (h : (client env d).1 = none) :
    client env d = (none, { d with c := true }) := by
  unfold client at h ⊢
  by_cases hc : d.c = true
  · simp only [hc, if_true]
    cases d
    simp_all
  · simp only [hc] at h ⊢
    simp only [Bool.false_eq_true, if_false] at h ⊢
    cases hl : loadKubeConfig env d.KubeConfig with
    | error e => simp [hl] at h
    | ok cfg =>
      simp only [hl] at h ⊢
      cases hg : env.GetKubevirtClientFromRESTConfig cfg with
      | some e => simp [hg] at h
      | none => rfl

theorem client_err (env : Env) (d : Driver) (h : (client env d).1 ≠ none) :
    client env d = ((client env d).1, d) := by
  unfold client at h ⊢
  by_cases hc : d.c = true
  · simp [hc] at h
  · have hc' : d.c = false := by simpa using hc
    simp only [hc', Bool.false_eq_true, if_false] at h ⊢
    cases hl : loadKubeConfig env d.KubeConfig with
    | error e => rfl
    | ok cfg =>
      simp only [hl] at h ⊢
      cases hg : env.GetKubevirtClientFromRESTConfig cfg with
      | some e =>
        cases d
        simp_all
      | none => simp [hg] at h

/-! ## The NotFound predicate -/

/-- A status error counts as NotFound when its reason is `NotFound`, or when its reason is not
a known one and its code is 404; no other error does unless it wraps such a status. -/
theorem IsNotFound_status (reason msg : String) (code : Int) :
    (IsNotFound (.status reason code msg) = true ↔
      reason = StatusReasonNotFound ∨ (reason ∉ knownReasons ∧ code = 404)) ∧
    IsNotFound (.new msg) = false ∧
    (∀ inner, IsNotFound (.wrap msg inner) = IsNotFound inner) := by
  refine ⟨?_, rfl, fun inner => rfl⟩
  unfold IsNotFound
  simp only [reasonAndCodeForError]
  split_ifs with h1 h2
  · simp [h1]
  · simp [h2]
  · simp only [Bool.false_eq_true, false_iff, not_or]
    exact ⟨h1, h2⟩

/-! ## GetState -/

/-- What `GetState` does once the client is there, by the answer to the lookup. -/
theorem GetState_eq (env : Env) (d : Driver) (tr : List Event)
    (hc : (client env d).1 = none) :
    GetState env d tr =
      (match env.vmGet (tr ++ [Event.vmGet d.Namespace d.MachineName]) with
      | .error err =>
        if IsNotFound err then
          ⟨(State.None, none), { d with c := true },
            tr ++ [Event.vmGet d.Namespace d.MachineName]⟩
        else
          ⟨(State.Error, some (.wrap "failed to get vm: " err)), { d with c := true },
            tr ++ [Event.vmGet d.Namespace d.MachineName]⟩
      | .ok _ =>
        ⟨((GetState env d tr).val.1, none), { d with c := true },
          tr ++ [Event.vmGet d.Namespace d.MachineName]⟩) := by
  unfold GetState
  rw [client_ok env d hc]
  simp only
  cases env.vmGet (tr ++ [Event.vmGet d.Namespace d.MachineName]) with
  | error e => simp only
  | ok vm =>
    simp only
    split_ifs <;> rfl

/-- Without a client `GetState` issues no call and hands the client's error on. -/
theorem GetState_client_err (env : Env) (d : Driver) (tr : List Event)
    (hc : (client env d).1 ≠ none) :
    GetState env d tr = ⟨(State.None, (client env d).1), d, tr⟩ := by
  unfold GetState
  rw [client_err env d hc]
  cases h : (client env d).1 with
  | none => exact absurd h hc
  | some e => rfl

/-- With a client `GetState` issues exactly the lookup and keeps the client. -/
theorem GetState_trace (env : Env) (d : Driver) (tr : List Event)
    (hc : (client env d).1 = none) :
    ∃ v, GetState env d tr =
      ⟨v, { d with c := true }, tr ++ [Event.vmGet d.Namespace d.MachineName]⟩ := by
  rw [GetState_eq env d tr hc]
  cases env.vmGet (tr ++ [Event.vmGet d.Namespace d.MachineName]) with
  | error e =>
    by_cases h : IsNotFound e = true
    · exact ⟨_, by simp only [h, if_true]; rfl⟩
    · exact ⟨_, by simp only [h]; rfl⟩
  | ok vm => exact ⟨_, rfl⟩

/-- Once the client is there, caching it does not change what `GetState` does. -/
theorem GetState_cached (env : Env) (d : Driver) (tr : List Event)
    (hc : (client env d).1 = none) :
    GetState env { d with c := true } tr = GetState env d tr := by
  unfold GetState
  rw [client_ok env d hc, client_cached env { d with c := true } rfl]

/-- C1: when the lookup returns a VirtualMachine, `GetState` returns a nil error and a state
that depends on `Status.PrintableStatus` alone: Starting exactly for Provisioning, Starting and
WaitingForVolumeBinding; Running exactly for Running and Migrating; Paused exactly for Paused;
Stopping exactly for Stopping and Terminating; Stopped exactly for Stopped; Error exactly for
CrashLoopBackOff, Unknown, Unschedulable, ErrImagePull, ImagePullBackOff, PvcNotFound and
DataVolumeError; None exactly for every other string, the empty one included. The state is
never Saved or Timeout, and each of the seven other states is returned for some status. -/
theorem GetState_printableStatus (env : Env) (d : Driver) (tr : List Event) (vm : VirtualMachine)
    (hc : (client env d).1 = none)
    (hvm : env.vmGet (tr ++ [Event.vmGet d.Namespace d.MachineName]) = .ok vm) :
    ∃ st : State,
      (GetState env d tr).val = (st, none) ∧
      (st = State.Starting ↔ vm.Status.PrintableStatus ∈
        [VirtualMachineStatusProvisioning, VirtualMachineStatusStarting,
          VirtualMachineStatusWaitingForVolumeBinding]) ∧
      (st = State.Running ↔ vm.Status.PrintableStatus ∈
        [VirtualMachineStatusRunning, VirtualMachineStatusMigrating]) ∧
      (st = State.Paused ↔ vm.Status.PrintableStatus = VirtualMachineStatusPaused) ∧
      (st = State.Stopping ↔ vm.Status.PrintableStatus ∈
        [VirtualMachineStatusStopping, VirtualMachineStatusTerminating]) ∧
      (st = State.Stopped ↔ vm.Status.PrintableStatus = VirtualMachineStatusStopped) ∧
      (st = State.Error ↔ vm.Status.PrintableStatus ∈
        [VirtualMachineStatusCrashLoopBackOff, VirtualMachineStatusUnknown,
          VirtualMachineStatusUnschedulable, VirtualMachineStatusErrImagePull,
          VirtualMachineStatusImagePullBackOff, VirtualMachineStatusPvcNotFound,
          VirtualMachineStatusDataVolumeError]) ∧
      (st = State.None ↔ vm.Status.PrintableStatus ∉
        [VirtualMachineStatusProvisioning, VirtualMachineStatusStarting,
          VirtualMachineStatusWaitingForVolumeBinding, VirtualMachineStatusRunning,
          VirtualMachineStatusMigrating, VirtualMachineStatusPaused,
          VirtualMachineStatusStopping, VirtualMachineStatusTerminating,
          VirtualMachineStatusStopped, VirtualMachineStatusCrashLoopBackOff,
          VirtualMachineStatusUnknown, VirtualMachineStatusUnschedulable,
          VirtualMachineStatusErrImagePull, VirtualMachineStatusImagePullBackOff,
          VirtualMachineStatusPvcNotFound, VirtualMachineStatusDataVolumeError]) ∧
      ("" ∉
        [VirtualMachineStatusProvisioning, VirtualMachineStatusStarting,
          VirtualMachineStatusWaitingForVolumeBinding, VirtualMachineStatusRunning,
          VirtualMachineStatusMigrating, VirtualMachineStatusPaused,
          VirtualMachineStatusStopping, VirtualMachineStatusTerminating,
          VirtualMachineStatusStopped, VirtualMachineStatusCrashLoopBackOff,
          VirtualMachineStatusUnknown, VirtualMachineStatusUnschedulable,
          VirtualMachineStatusErrImagePull, VirtualMachineStatusImagePullBackOff,
          VirtualMachineStatusPvcNotFound, VirtualMachineStatusDataVolumeError]) ∧
      st ≠ State.Saved ∧ st ≠ State.Timeout ∧
      (∀ st' ∈ [State.None, State.Starting, State.Running, State.Paused, State.Stopping,
          State.Stopped, State.Error],
        ∃ s : String,
          (GetState (envOk (.ok (vmWithStatus s)) (.ok {})) d tr).val = (st', none)) := by
  have hrange : ∀ st' ∈ [State.None, State.Starting, State.Running, State.Paused,
      State.Stopping, State.Stopped, State.Error],
      ∃ s : String,
        (GetState (envOk (.ok (vmWithStatus s)) (.ok {})) d tr).val = (st', none) := by
    intro st' hst'
    have hcl : ∀ s, (client (envOk (.ok (vmWithStatus s)) (.ok {})) d).1 = none := by
      intro s
      unfold client
      by_cases hd : d.c = true <;> simp [hd, loadKubeConfig, envOk]
    simp only [List.mem_cons, List.mem_singleton, List.not_mem_nil, or_false] at hst'
    rcases hst' with rfl | rfl | rfl | rfl | rfl | rfl | rfl
    · refine ⟨"", ?_⟩
      unfold GetState
      rw [client_ok _ _ (hcl _)]
      rfl
    · refine ⟨VirtualMachineStatusStarting, ?_⟩
      unfold GetState
      rw [client_ok _ _ (hcl _)]
      rfl
    · refine ⟨VirtualMachineStatusRunning, ?_⟩
      unfold GetState
      rw [client_ok _ _ (hcl _)]
      rfl
    · refine ⟨VirtualMachineStatusPaused, ?_⟩
      unfold GetState
      rw [client_ok _ _ (hcl _)]
      rfl
    · refine ⟨VirtualMachineStatusStopping, ?_⟩
      unfold GetState
      rw [client_ok _ _ (hcl _)]
      rfl
    · refine ⟨VirtualMachineStatusStopped, ?_⟩
      unfold GetState
      rw [client_ok _ _ (hcl _)]
      rfl
    · refine ⟨VirtualMachineStatusUnknown, ?_⟩
      unfold GetState
      rw [client_ok _ _ (hcl _)]
      rfl
  unfold GetState
  rw [client_ok env d hc]
  simp only [hvm]
  generalize vm.Status.PrintableStatus = s at *
  split_ifs with h1 h2 h3 h4 h5 h6
  · refine ⟨_, rfl, ?_⟩
    rcases h1 with rfl | rfl | rfl <;>
      refine ⟨?_, ?_, ?_, ?_, ?_, ?_, ?_, ?_, ?_, ?_, hrange⟩ <;> decide
  · refine ⟨_, rfl, ?_⟩
    rcases h2 with rfl | rfl <;>
      refine ⟨?_, ?_, ?_, ?_, ?_, ?_, ?_, ?_, ?_, ?_, hrange⟩ <;> decide
  · refine ⟨_, rfl, ?_⟩
    subst h3
    refine ⟨?_, ?_, ?_, ?_, ?_, ?_, ?_, ?_, ?_, ?_, hrange⟩ <;> decide
  · refine ⟨_, rfl, ?_⟩
    rcases h4 with rfl | rfl <;>
      refine ⟨?_, ?_, ?_, ?_, ?_, ?_, ?_, ?_, ?_, ?_, hrange⟩ <;> decide
  · refine ⟨_, rfl, ?_⟩
    subst h5
    refine ⟨?_, ?_, ?_, ?_, ?_, ?_, ?_, ?_, ?_, ?_, hrange⟩ <;> decide
  · refine ⟨_, rfl, ?_⟩
    rcases h6 with rfl | rfl | rfl | rfl | rfl | rfl | rfl <;>
      refine ⟨?_, ?_, ?_, ?_, ?_, ?_, ?_, ?_, ?_, ?_, hrange⟩ <;> decide
  · refine ⟨_, rfl, ?_⟩
    simp only [not_or] at h1 h2 h4 h6
    refine ⟨?_, ?_, ?_, ?_, ?_, ?_, ?_, by decide, by decide, by decide, hrange⟩ <;>
      simp_all

/-- C1 on a machine whose printable status is Running: the state is Running. -/
theorem GetState_printableStatus_witness :
    (GetState envRunning drv []).val = (State.Running, none) :=
  match GetState_printableStatus envRunning drv []
      (vmWithStatus VirtualMachineStatusRunning) rfl rfl with
  | ⟨_, hval, _, hrun, _⟩ => by rw [hval, hrun.mpr (by decide)]

/-- C2: `GetState` returns a non-nil error if and only if the client cannot be obtained or
the lookup fails with an error that is not NotFound; without a client the result is None with
the client's error, after such a lookup failure it is Error with the wrapped lookup error, and
after a NotFound answer it is (None, nil). -/
theorem GetState_error_iff (env : Env) (d : Driver) (tr : List Event) :
    ((GetState env d tr).val.2 ≠ none ↔
      ((client env d).1 ≠ none ∨
        ((client env d).1 = none ∧
          ∃ e, env.vmGet (tr ++ [Event.vmGet d.Namespace d.MachineName]) = .error e ∧
            IsNotFound e = false))) ∧
    ((client env d).1 ≠ none →
      (GetState env d tr).val = (State.None, (client env d).1)) ∧
    (∀ e, (client env d).1 = none →
      env.vmGet (tr ++ [Event.vmGet d.Namespace d.MachineName]) = .error e →
      IsNotFound e = false →
      (GetState env d tr).val = (State.Error, some (.wrap "failed to get vm: " e))) ∧
    (∀ e, (client env d).1 = none →
      env.vmGet (tr ++ [Event.vmGet d.Namespace d.MachineName]) = .error e →
      IsNotFound e = true →
      (GetState env d tr).val = (State.None, none)) := by
  refine ⟨?_, ?_, ?_, ?_⟩
  · by_cases hc : (client env d).1 = none
    · rw [GetState_eq env d tr hc]
      cases hl : env.vmGet (tr ++ [Event.vmGet d.Namespace d.MachineName]) with
      | error e =>
        by_cases hnf : IsNotFound e = true
        · simp [hc, hnf]
        · simp [hc, hnf]
      | ok vm => simp [hc]
    · rw [GetState_client_err env d tr hc]
      simp [hc]
  · intro hc
    rw [GetState_client_err env d tr hc]
  · intro e hc hl hnf
    rw [GetState_eq env d tr hc, hl]
    simp [hnf]
  · intro e hc hl hnf
    rw [GetState_eq env d tr hc, hl]
    simp [hnf]

/-- C2 on a lookup answered with a status of unknown reason and code 404, which
`IsNotFound` counts as NotFound: the result is (None, nil). -/
theorem GetState_error_iff_witness :
    (GetState (envOk (.error (.status "" 404 "404 page not found")) (.ok {})) drv []).val
      = (State.None, none) :=
  (GetState_error_iff (envOk (.error (.status "" 404 "404 page not found")) (.ok {})) drv []).2.2.2
    (.status "" 404 "404 page not found") rfl rfl (by decide)

/-! ## Create -/

/-- The key path is computed once: a second `GetSSHKeyPath` returns the same path and leaves
the driver alone, and none of the fields `Create` reads changes. -/
theorem GetSSHKeyPath_spec (env : Env) (d : Driver) :
    ∃ d1, GetSSHKeyPath env { d with c := true } = ((GetSSHKeyPath env d).1, d1) ∧
      GetSSHKeyPath env d1 = ((GetSSHKeyPath env d).1, d1) ∧
      d1.Namespace = d.Namespace ∧ d1.MachineName = d.MachineName ∧ d1.Image = d.Image ∧
      d1.CPU = d.CPU ∧ d1.Memory = d.Memory := by
  unfold GetSSHKeyPath ResolveStorePath
  by_cases hk : d.SSHKeyPath = ""
  · simp only [hk, if_true]
    refine ⟨_, rfl, ?_, rfl, rfl, rfl, rfl, rfl⟩
    by_cases hp : env.filepathJoin [d.StorePath, "machines", d.MachineName, "id_rsa"] = ""
    · simp only [hp, if_true]
    · simp only [hp, if_false]
  · simp only [hk, if_false]
    exact ⟨_, rfl, by simp only [hk, if_false], rfl, rfl, rfl, rfl, rfl⟩

/-- C5: when the initial lookup answers anything but NotFound, `Create` returns a non-nil
error (the "already exists" error after a successful lookup, the lookup's own error
otherwise), and the lookup is the only call it issues: no create, no delete, no key
generation. -/
theorem Create_existing (env : Env) (d : Driver) (tr : List Event)
    (hc : (client env d).1 = none)
    (hnf : IsNotFoundErr
      (errOf (env.vmGet (tr ++ [Event.vmGet d.Namespace d.MachineName]))) = false) :
    (Create env d tr).val ≠ none ∧
    (∀ vm, env.vmGet (tr ++ [Event.vmGet d.Namespace d.MachineName]) = .ok vm →
      (Create env d tr).val = some (.new
        ("vm " ++ d.MachineName ++ " already exists in namespace " ++ d.Namespace))) ∧
    (∀ e, env.vmGet (tr ++ [Event.vmGet d.Namespace d.MachineName]) = .error e →
      (Create env d tr).val = some e) ∧
    (Create env d tr).trace = tr ++ [Event.vmGet d.Namespace d.MachineName] ∧
    (∀ ev ∈ issued tr (Create env d tr),
      ev.isCreateOrDelete = false ∧ ∀ p, ev ≠ Event.GenerateSSHKey p) := by
  have key : Create env d tr =
      ⟨(match errOf (env.vmGet (tr ++ [Event.vmGet d.Namespace d.MachineName])) with
        | none => some (.new
            ("vm " ++ d.MachineName ++ " already exists in namespace " ++ d.Namespace))
        | some e => some e),
        { d with c := true }, tr ++ [Event.vmGet d.Namespace d.MachineName]⟩ := by
    unfold Create
    rw [client_ok env d hc]
    simp only [hnf, Bool.not_false, if_true]
    cases errOf (env.vmGet (tr ++ [Event.vmGet d.Namespace d.MachineName])) <;> rfl
  rw [key]
  refine ⟨?_, ?_, ?_, rfl, ?_⟩
  · cases errOf (env.vmGet (tr ++ [Event.vmGet d.Namespace d.MachineName])) <;> simp
  · intro vm hvm
    simp [hvm, errOf]
  · intro e he
    simp [he, errOf]
  · intro ev hev
    simp only [issued, List.drop_left, List.mem_singleton] at hev
    subst hev
    exact ⟨rfl, fun p h => Event.noConfusion h⟩

/-- C5 on an existing machine: `Create` fails with the "already exists" error. -/
theorem Create_existing_witness :
    (Create (envOk (.ok (vmWithStatus "Running")) (.ok {})) drv []).val =
      some (.new ("vm " ++ "m" ++ " already exists in namespace " ++ "default")) :=
  (Create_existing (envOk (.ok (vmWithStatus "Running")) (.ok {})) drv [] rfl rfl).2.1
    (vmWithStatus "Running") rfl

/-- C4: when the lookup answers NotFound, the key generation and the read of the public key
succeed, the memory quantity parses to `mem` and the two create calls succeed, `Create`
returns nil, and the calls it issues that change the cluster are, in this order, the creation
of the Secret `makeSSHSecret d.Namespace d.MachineName publicKey` and the creation of the
VirtualMachine `makeVM d.Namespace d.MachineName d.Image (uint32 d.CPU) mem`, both in
`d.Namespace`; no delete is issued. -/
theorem Create_success (env : Env) (d : Driver) (tr : List Event) (e : GoError)
    (publicKey : String) (mem : Quantity)
    (hc : (client env d).1 = none)
    (hget : env.vmGet (tr ++ [Event.vmGet d.Namespace d.MachineName]) = .error e)
    (hnf : IsNotFound e = true)
    (hgen : env.GenerateSSHKey
      (tr ++ [Event.vmGet d.Namespace d.MachineName,
        Event.GenerateSSHKey (GetSSHKeyPath env d).1]) = none)
    (hread : env.ReadFile
      (tr ++ [Event.vmGet d.Namespace d.MachineName,
        Event.GenerateSSHKey (GetSSHKeyPath env d).1,
        Event.ReadFile ((GetSSHKeyPath env d).1 ++ ".pub")]) = .ok publicKey)
    (hmem : env.ParseQuantity (toString d.Memory ++ "Mi") = .ok mem)
    (hsecret : env.secretCreate
      (tr ++ [Event.vmGet d.Namespace d.MachineName,
        Event.GenerateSSHKey (GetSSHKeyPath env d).1,
        Event.ReadFile ((GetSSHKeyPath env d).1 ++ ".pub"),
        Event.secretCreate d.Namespace
          (makeSSHSecret d.Namespace d.MachineName publicKey)]) = none)
    (hvm : env.vmCreate
      (tr ++ [Event.vmGet d.Namespace d.MachineName,
        Event.GenerateSSHKey (GetSSHKeyPath env d).1,
        Event.ReadFile ((GetSSHKeyPath env d).1 ++ ".pub"),
        Event.secretCreate d.Namespace
          (makeSSHSecret d.Namespace d.MachineName publicKey),
        Event.vmCreate d.Namespace
          (makeVM d.Namespace d.MachineName d.Image (uint32 d.CPU) mem)]) = none) :
    (Create env d tr).val = none ∧
    (issued tr (Create env d tr)).filter Event.isMutating =
      [Event.secretCreate d.Namespace (makeSSHSecret d.Namespace d.MachineName publicKey),
        Event.vmCreate d.Namespace
          (makeVM d.Namespace d.MachineName d.Image (uint32 d.CPU) mem)] ∧
    (makeSSHSecret d.Namespace d.MachineName publicKey).ObjectMeta.Name
      = d.MachineName ++ "-ssh" ∧
    (makeSSHSecret d.Namespace d.MachineName publicKey).Data
      = [("authorized_keys", publicKey)] ∧
    (∀ ev ∈ issued tr (Create env d tr), ∀ ns name,
      ev ≠ Event.secretDelete ns name ∧ ev ≠ Event.vmDelete ns name) ∧
    (Create env d tr).trace =
      tr ++ [Event.vmGet d.Namespace d.MachineName,
        Event.GenerateSSHKey (GetSSHKeyPath env d).1,
        Event.ReadFile ((GetSSHKeyPath env d).1 ++ ".pub"),
        Event.secretCreate d.Namespace
          (makeSSHSecret d.Namespace d.MachineName publicKey),
        Event.vmCreate d.Namespace
          (makeVM d.Namespace d.MachineName d.Image (uint32 d.CPU) mem)] := by
  obtain ⟨d1, hk1, hk2, hns, hname, himg, hcpu, hmemf⟩ := GetSSHKeyPath_spec env d
  have key : (Create env d tr).val = none ∧ (Create env d tr).trace =
      tr ++ [Event.vmGet d.Namespace d.MachineName,
        Event.GenerateSSHKey (GetSSHKeyPath env d).1,
        Event.ReadFile ((GetSSHKeyPath env d).1 ++ ".pub"),
        Event.secretCreate d.Namespace
          (makeSSHSecret d.Namespace d.MachineName publicKey),
        Event.vmCreate d.Namespace
          (makeVM d.Namespace d.MachineName d.Image (uint32 d.CPU) mem)] := by
    unfold Create
    rw [client_ok env d hc]
    simp only [hget, errOf, IsNotFoundErr, hnf, Bool.not_true, Bool.false_eq_true, if_false,
      hk1, hk2, hns, hname, himg, hcpu, hmemf, List.append_assoc, List.singleton_append,
      List.cons_append, List.nil_append, hgen, hread, hmem, hsecret, hvm, and_self]
  obtain ⟨hval, htrace⟩ := key
  have hiss : issued tr (Create env d tr) =
      [Event.vmGet d.Namespace d.MachineName,
        Event.GenerateSSHKey (GetSSHKeyPath env d).1,
        Event.ReadFile ((GetSSHKeyPath env d).1 ++ ".pub"),
        Event.secretCreate d.Namespace
          (makeSSHSecret d.Namespace d.MachineName publicKey),
        Event.vmCreate d.Namespace
          (makeVM d.Namespace d.MachineName d.Image (uint32 d.CPU) mem)] := by
    simp only [issued, htrace, List.drop_left]
  refine ⟨hval, ?_, rfl, rfl, ?_, htrace⟩
  · rw [hiss]
    rfl
  · intro ev hev ns name
    rw [hiss] at hev
    simp only [List.mem_cons, List.mem_singleton, List.not_mem_nil, or_false] at hev
    rcases hev with rfl | rfl | rfl | rfl | rfl <;>
      exact ⟨fun h => Event.noConfusion h, fun h => Event.noConfusion h⟩

/-- C4 on the driver `drv` for a machine that does not exist yet: `Create` returns nil. -/
theorem Create_success_witness :
    (Create (envOk (.error errNotFound) (.ok {})) drv []).val = none :=
  (Create_success (envOk (.error errNotFound) (.ok {})) drv [] errNotFound "ssh-rsa AAAA"
    ⟨"1024Mi"⟩ rfl rfl rfl rfl rfl rfl rfl rfl).1

/-- The name of the Secret `Create` makes is never the machine name. -/
theorem sshSecretName_ne (name : String) : sshSecretName name ≠ name := by
  intro h
  have hlen := congrArg String.length h
  have h4 : "-ssh".length = 4 := by decide
  simp only [sshSecretName, String.length_append, h4] at hlen
  omega

/-- C9 on the code: when the Secret is created and the creation of the VirtualMachine fails
with `err`, `Create` returns the error wrapping `err`, and the Secret it then deletes is the
one named `d.MachineName`, which is not the name of the Secret it created
(`d.MachineName` followed by `-ssh`): the created Secret stays behind. -/
theorem Create_vm_failure_deletes_other_secret (env : Env) (d : Driver) (tr : List Event)
    (e err : GoError) (publicKey : String) (mem : Quantity)
    (hc : (client env d).1 = none)
    (hget : env.vmGet (tr ++ [Event.vmGet d.Namespace d.MachineName]) = .error e)
    (hnf : IsNotFound e = true)
    (hgen : env.GenerateSSHKey
      (tr ++ [Event.vmGet d.Namespace d.MachineName,
        Event.GenerateSSHKey (GetSSHKeyPath env d).1]) = none)
    (hread : env.ReadFile
      (tr ++ [Event.vmGet d.Namespace d.MachineName,
        Event.GenerateSSHKey (GetSSHKeyPath env d).1,
        Event.ReadFile ((GetSSHKeyPath env d).1 ++ ".pub")]) = .ok publicKey)
    (hmem : env.ParseQuantity (toString d.Memory ++ "Mi") = .ok mem)
    (hsecret : env.secretCreate
      (tr ++ [Event.vmGet d.Namespace d.MachineName,
        Event.GenerateSSHKey (GetSSHKeyPath env d).1,
        Event.ReadFile ((GetSSHKeyPath env d).1 ++ ".pub"),
        Event.secretCreate d.Namespace
          (makeSSHSecret d.Namespace d.MachineName publicKey)]) = none)
    (hvm : env.vmCreate
      (tr ++ [Event.vmGet d.Namespace d.MachineName,
        Event.GenerateSSHKey (GetSSHKeyPath env d).1,
        Event.ReadFile ((GetSSHKeyPath env d).1 ++ ".pub"),
        Event.secretCreate d.Namespace
          (makeSSHSecret d.Namespace d.MachineName publicKey),
        Event.vmCreate d.Namespace
          (makeVM d.Namespace d.MachineName d.Image (uint32 d.CPU) mem)]) = some err) :
    (Create env d tr).val = some (.wrap "failed to create vm: " err) ∧
    (Create env d tr).trace =
      tr ++ [Event.vmGet d.Namespace d.MachineName,
        Event.GenerateSSHKey (GetSSHKeyPath env d).1,
        Event.ReadFile ((GetSSHKeyPath env d).1 ++ ".pub"),
        Event.secretCreate d.Namespace
          (makeSSHSecret d.Namespace d.MachineName publicKey),
        Event.vmCreate d.Namespace
          (makeVM d.Namespace d.MachineName d.Image (uint32 d.CPU) mem),
        Event.secretDelete d.Namespace d.MachineName] ∧
    (makeSSHSecret d.Namespace d.MachineName publicKey).ObjectMeta.Name ≠ d.MachineName := by
  obtain ⟨d1, hk1, hk2, hns, hname, himg, hcpu, hmemf⟩ := GetSSHKeyPath_spec env d
  refine ⟨?_, ?_, sshSecretName_ne d.MachineName⟩
  · unfold Create
    rw [client_ok env d hc]
    simp only [hget, errOf, IsNotFoundErr, hnf, Bool.not_true, Bool.false_eq_true, if_false,
      hk1, hk2, hns, hname, himg, hcpu, hmemf, List.append_assoc, List.singleton_append,
      List.cons_append, List.nil_append, hgen, hread, hmem, hsecret, hvm]
  · unfold Create
    rw [client_ok env d hc]
    simp only [hget, errOf, IsNotFoundErr, hnf, Bool.not_true, Bool.false_eq_true, if_false,
      hk1, hk2, hns, hname, himg, hcpu, hmemf, List.append_assoc, List.singleton_append,
      List.cons_append, List.nil_append, hgen, hread, hmem, hsecret, hvm]

/-- C9 at the driver `drv` when the API server rejects the VirtualMachine: the Secret
`m-ssh` was created and the Secret `m` is the one deleted. -/
theorem Create_vm_failure_deletes_other_secret_witness :
    (Create envCreateFails drv []).trace =
      [] ++ [Event.vmGet "default" "m",
        Event.GenerateSSHKey (GetSSHKeyPath envCreateFails drv).1,
        Event.ReadFile ((GetSSHKeyPath envCreateFails drv).1 ++ ".pub"),
        Event.secretCreate "default" (makeSSHSecret "default" "m" "ssh-rsa AAAA"),
        Event.vmCreate "default" (makeVM "default" "m" defaultImage (uint32 1) ⟨"1024Mi"⟩),
        Event.secretDelete "default" "m"] :=
  (Create_vm_failure_deletes_other_secret envCreateFails drv [] errNotFound errForbidden
    "ssh-rsa AAAA" ⟨"1024Mi"⟩ rfl rfl rfl rfl rfl rfl rfl rfl).2.1

/-! ## Shared lemmas on the calls of `Create`, `Remove` and `GetSSHHostname` -/

/-- `Create` issues between one and four API calls. -/
theorem Create_apiCalls (env : Env) (d : Driver) (tr : List Event)
    (hc : (client env d).1 = none) :
    1 ≤ apiCalls (issued tr (Create env d tr)) ∧ apiCalls (issued tr (Create env d tr)) ≤ 4 := by
  obtain ⟨d1, hk1, hk2, -⟩ := GetSSHKeyPath_spec env d
  unfold Create
  rw [client_ok env d hc]
  simp only [hk1, hk2]
  repeat' split
  all_goals
    simp [issued, apiCalls, Event.isAPICall, List.filter_cons]

/-- A `GetState` that returns a nil error had a client, issued the lookup and nothing else. -/
theorem GetState_of_val (env : Env) (d : Driver) (tr : List Event) (st : State)
    (hst : (GetState env d tr).val = (st, none)) :
    (client env d).1 = none ∧
    GetState env d tr =
      ⟨(st, none), { d with c := true }, tr ++ [Event.vmGet d.Namespace d.MachineName]⟩ := by
  have hc : (client env d).1 = none := by
    by_contra hne
    rw [GetState_client_err env d tr hne] at hst
    exact hne (congrArg Prod.snd hst)
  obtain ⟨v, hv⟩ := GetState_trace env d tr hc
  refine ⟨hc, ?_⟩
  rw [hv] at hst ⊢
  simp only at hst
  rw [hst]

theorem not_okOrNotFound_iff (err : Option GoError) :
    (err ≠ none ∧ (!IsNotFoundErr err) = true) ↔ okOrNotFound err = false := by
  cases err <;> simp [okOrNotFound, IsNotFoundErr]

theorem ne_none_of_not_okOrNotFound (err : Option GoError) (h : okOrNotFound err = false) :
    err ≠ none := by
  cases err <;> simp_all [okOrNotFound]

theorem Remove_spec_aux (env : Env) (d : Driver) (tr t1 t2 t3 : List Event) (st : State)
    (hst : (GetState env d tr).val = (st, none))
    (h1 : t1 = tr ++ Event.vmGet d.Namespace d.MachineName ::
      (if st = State.Running then [Event.vmStop d.Namespace d.MachineName (some 0)] else []))
    (h2 : t2 = t1 ++ [Event.vmDelete d.Namespace d.MachineName])
    (h3 : t3 = t2 ++ [Event.secretDelete d.Namespace (d.MachineName ++ "-ssh")]) :
    (Remove env d tr).trace =
      (if st = State.Running ∧ env.vmStop t1 ≠ none then t1
        else if ¬ okOrNotFound (env.vmDelete t2) then t2 else t3) ∧
    ((Remove env d tr).val = none ↔
      (st = State.Running → env.vmStop t1 = none) ∧ okOrNotFound (env.vmDelete t2) ∧
        okOrNotFound (env.secretDelete t3)) := by
  obtain ⟨hc, hg⟩ := GetState_of_val env d tr st hst
  subst h1 h2 h3
  unfold Remove Kill
  rw [client_ok env d hc]
  simp only [GetState_cached env d tr hc, hg, client_cached env { d with c := true } rfl,
    sshSecretName, P]
  simp only [not_okOrNotFound_iff, ne_eq, Bool.not_eq_true]
  by_cases hR : st = State.Running
  · simp only [hR, if_true, true_and, List.append_assoc, List.singleton_append,
      List.cons_append, List.nil_append, forall_true_left]
    cases hstop : env.vmStop (tr ++ [Event.vmGet d.Namespace d.MachineName,
        Event.vmStop d.Namespace d.MachineName (some 0)]) with
    | some e => simp
    | none =>
      simp only [not_true_eq_false, if_false, true_and, List.append_assoc,
        List.singleton_append, List.cons_append, List.nil_append]
      cases hd : okOrNotFound (env.vmDelete (tr ++ [Event.vmGet d.Namespace d.MachineName,
        Event.vmStop d.Namespace d.MachineName (some 0),
        Event.vmDelete d.Namespace d.MachineName])) with
      | false =>
        have := ne_none_of_not_okOrNotFound _ hd
        simp [this]
      | true =>
        cases hs : okOrNotFound (env.secretDelete (tr ++
          [Event.vmGet d.Namespace d.MachineName,
            Event.vmStop d.Namespace d.MachineName (some 0),
            Event.vmDelete d.Namespace d.MachineName,
            Event.secretDelete d.Namespace (d.MachineName ++ "-ssh")])) with
        | false =>
          have := ne_none_of_not_okOrNotFound _ hs
          simp [this]
        | true => simp
  · simp only [hR, if_false, false_and, List.append_assoc, List.singleton_append,
      List.cons_append, List.nil_append, false_implies, true_and]
    cases hd : okOrNotFound (env.vmDelete (tr ++ [Event.vmGet d.Namespace d.MachineName,
        Event.vmDelete d.Namespace d.MachineName])) with
    | false =>
      have := ne_none_of_not_okOrNotFound _ hd
      simp [this]
    | true =>
      cases hs : okOrNotFound (env.secretDelete (tr ++
        [Event.vmGet d.Namespace d.MachineName,
          Event.vmDelete d.Namespace d.MachineName,
          Event.secretDelete d.Namespace (d.MachineName ++ "-ssh")])) with
      | false =>
        have := ne_none_of_not_okOrNotFound _ hs
        simp [this]
      | true => simp

/-- The error `Remove` returns: the Stop's, else the error of the first delete whose answer
is neither nil nor NotFound, else nil. -/
theorem Remove_val_aux (env : Env) (d : Driver) (tr t1 t2 t3 : List Event) (st : State)
    (hst : (GetState env d tr).val = (st, none))
    (h1 : t1 = tr ++ Event.vmGet d.Namespace d.MachineName ::
      (if st = State.Running then [Event.vmStop d.Namespace d.MachineName (some 0)] else []))
    (h2 : t2 = t1 ++ [Event.vmDelete d.Namespace d.MachineName])
    (h3 : t3 = t2 ++ [Event.secretDelete d.Namespace (d.MachineName ++ "-ssh")]) :
    (Remove env d tr).val =
      (if st = State.Running ∧ env.vmStop t1 ≠ none then env.vmStop t1
        else if ¬ okOrNotFound (env.vmDelete t2) then env.vmDelete t2
        else if ¬ okOrNotFound (env.secretDelete t3) then env.secretDelete t3
        else none) := by
  obtain ⟨hc, hg⟩ := GetState_of_val env d tr st hst
  subst h1 h2 h3
  unfold Remove Kill
  rw [client_ok env d hc]
  simp only [GetState_cached env d tr hc, hg, client_cached env { d with c := true } rfl,
    sshSecretName, P]
  simp only [not_okOrNotFound_iff, ne_eq, Bool.not_eq_true]
  by_cases hR : st = State.Running
  · simp only [hR, if_true, true_and, List.append_assoc, List.singleton_append,
      List.cons_append, List.nil_append]
    cases hstop : env.vmStop (tr ++ [Event.vmGet d.Namespace d.MachineName,
        Event.vmStop d.Namespace d.MachineName (some 0)]) with
    | some e => simp
    | none =>
      simp only [not_true_eq_false, if_false, List.append_assoc,
        List.singleton_append, List.cons_append, List.nil_append]
      cases hd : okOrNotFound (env.vmDelete (tr ++ [Event.vmGet d.Namespace d.MachineName,
        Event.vmStop d.Namespace d.MachineName (some 0),
        Event.vmDelete d.Namespace d.MachineName])) with
      | false => simp
      | true =>
        cases hs : okOrNotFound (env.secretDelete (tr ++
          [Event.vmGet d.Namespace d.MachineName,
            Event.vmStop d.Namespace d.MachineName (some 0),
            Event.vmDelete d.Namespace d.MachineName,
            Event.secretDelete d.Namespace (d.MachineName ++ "-ssh")])) with
        | false => simp
        | true => simp
  · simp only [hR, if_false, false_and, List.append_assoc, List.singleton_append,
      List.cons_append, List.nil_append]
    cases hd : okOrNotFound (env.vmDelete (tr ++ [Event.vmGet d.Namespace d.MachineName,
        Event.vmDelete d.Namespace d.MachineName])) with
    | false => simp
    | true =>
      cases hs : okOrNotFound (env.secretDelete (tr ++
        [Event.vmGet d.Namespace d.MachineName,
          Event.vmDelete d.Namespace d.MachineName,
          Event.secretDelete d.Namespace (d.MachineName ++ "-ssh")])) with
      | false => simp
      | true => simp

/-- With a client, `GetState` is its value together with the cached client and the lookup. -/
theorem GetState_of_client (env : Env) (d : Driver) (tr : List Event)
    (hc : (client env d).1 = none) :
    GetState env d tr =
      ⟨(GetState env d tr).val, { d with c := true },
        tr ++ [Event.vmGet d.Namespace d.MachineName]⟩ := by
  obtain ⟨v, hv⟩ := GetState_trace env d tr hc
  rw [hv]

/-- When `GetState` fails, `Remove` hands its error on and issues nothing more. -/
theorem Remove_getState_err (env : Env) (d : Driver) (tr : List Event) (s : State)
    (e : GoError) (hc : (client env d).1 = none)
    (hst : (GetState env d tr).val = (s, some e)) :
    Remove env d tr =
      ⟨some e, { d with c := true }, tr ++ [Event.vmGet d.Namespace d.MachineName]⟩ := by
  have hg := GetState_of_client env d tr hc
  rw [hst] at hg
  unfold Remove
  rw [client_ok env d hc]
  simp only [GetState_cached env d tr hc, hg]

/-- What `GetSSHHostname` returns, by the result of `GetState` and the answer to the lookup of
the VirtualMachineInstance. -/
theorem GetSSHHostname_spec_aux (env : Env) (d : Driver) (tr : List Event) :
    ((client env d).1 ≠ none →
      GetSSHHostname env d tr = ⟨.ret ("", (client env d).1), d, tr⟩) ∧
    (∀ s e, (client env d).1 = none → (GetState env d tr).val = (s, some e) →
      GetSSHHostname env d tr =
        ⟨.ret ("", some e), { d with c := true },
          tr ++ [Event.vmGet d.Namespace d.MachineName]⟩) ∧
    (∀ s, (GetState env d tr).val = (s, none) → s ≠ State.Running →
      GetSSHHostname env d tr =
        ⟨.ret ("", some ErrHostIsNotRunning), { d with c := true },
          tr ++ [Event.vmGet d.Namespace d.MachineName]⟩) ∧
    ((GetState env d tr).val = (State.Running, none) →
      GetSSHHostname env d tr =
        (match env.vmiGet (tr ++ [Event.vmGet d.Namespace d.MachineName,
            Event.vmiGet d.Namespace d.MachineName]) with
        | .error err =>
          ⟨.ret ("", some err), { d with c := true },
            tr ++ [Event.vmGet d.Namespace d.MachineName,
              Event.vmiGet d.Namespace d.MachineName]⟩
        | .ok vmi =>
          match vmi.Status.Interfaces with
          | [] =>
            ⟨.ret ("", some (.new ("no interfaces found for vm " ++ d.MachineName))),
              { d with c := true },
              tr ++ [Event.vmGet d.Namespace d.MachineName,
                Event.vmiGet d.Namespace d.MachineName]⟩
          | i :: _ =>
            ⟨.ret (i.IP, none), { d with c := true },
              tr ++ [Event.vmGet d.Namespace d.MachineName,
                Event.vmiGet d.Namespace d.MachineName]⟩)) := by
  refine ⟨?_, ?_, ?_, ?_⟩
  · intro hc
    unfold GetSSHHostname
    rw [client_err env d hc]
    cases h : (client env d).1 with
    | none => exact absurd h hc
    | some e => rfl
  · intro s e hc hst
    have hg := GetState_of_client env d tr hc
    rw [hst] at hg
    unfold GetSSHHostname MustBeRunning
    rw [client_ok env d hc]
    simp only [GetState_cached env d tr hc, hg]
  · intro s hst hs
    obtain ⟨hc, hg⟩ := GetState_of_val env d tr s hst
    unfold GetSSHHostname MustBeRunning
    rw [client_ok env d hc]
    simp only [GetState_cached env d tr hc, hg, ne_eq, hs, not_false_eq_true, if_true]
  · intro hst
    obtain ⟨hc, hg⟩ := GetState_of_val env d tr State.Running hst
    unfold GetSSHHostname MustBeRunning
    rw [client_ok env d hc]
    simp only [GetState_cached env d tr hc, hg, ne_eq, not_true_eq_false, if_false,
      List.append_assoc, List.singleton_append, List.cons_append, List.nil_append]
    cases env.vmiGet (tr ++ [Event.vmGet d.Namespace d.MachineName,
        Event.vmiGet d.Namespace d.MachineName]) with
    | error err => rfl
    | ok vmi =>
      simp only
      cases hi : vmi.Status.Interfaces with
      | nil => simp
      | cons i rest => simp

/-! ## GetSSHHostname, GetIP and GetURL -/

/-- Reading the first interface never panics. -/
theorem GetSSHHostname_no_panic (env : Env) (d : Driver) (tr : List Event) (msg : String) :
    (GetSSHHostname env d tr).val ≠ .panic msg := by
  obtain ⟨h1, h2, h3, h4⟩ := GetSSHHostname_spec_aux env d tr
  by_cases hc : (client env d).1 = none
  · rcases hv : (GetState env d tr).val with ⟨s, _ | e⟩
    · by_cases hs : s = State.Running
      · subst hs
        rw [h4 hv]
        cases env.vmiGet (tr ++ [Event.vmGet d.Namespace d.MachineName,
            Event.vmiGet d.Namespace d.MachineName]) with
        | error err => simp
        | ok vmi =>
          simp only
          cases vmi.Status.Interfaces <;> simp
      · rw [h3 s hv hs]
        simp
    · rw [h2 s e hc hv]
      simp
  · rw [h1 hc]
    simp

/-- C7: `GetIP` is `GetSSHHostname`; the result is never a panic (the index into
`Status.Interfaces` is in range); it is GetState's error when `GetState` fails, the
not-running error when the state is not Running, the lookup's error when the lookup of the
VirtualMachineInstance fails, the "no interfaces found" error when `Status.Interfaces` is
empty, and otherwise the IP of the first entry with a nil error. -/
theorem GetIP_GetSSHHostname (env : Env) (d : Driver) (tr : List Event) :
    GetIP env d tr = GetSSHHostname env d tr ∧
    (∀ msg, (GetSSHHostname env d tr).val ≠ .panic msg) ∧
    (∀ s e, (GetState env d tr).val = (s, some e) →
      (GetSSHHostname env d tr).val = .ret ("", some e)) ∧
    (∀ s, (GetState env d tr).val = (s, none) → s ≠ State.Running →
      (GetSSHHostname env d tr).val = .ret ("", some ErrHostIsNotRunning)) ∧
    ((GetState env d tr).val = (State.Running, none) →
      (∀ err, env.vmiGet (tr ++ [Event.vmGet d.Namespace d.MachineName,
          Event.vmiGet d.Namespace d.MachineName]) = .error err →
        (GetSSHHostname env d tr).val = .ret ("", some err)) ∧
      (∀ vmi, env.vmiGet (tr ++ [Event.vmGet d.Namespace d.MachineName,
          Event.vmiGet d.Namespace d.MachineName]) = .ok vmi →
        vmi.Status.Interfaces = [] →
        (GetSSHHostname env d tr).val =
          .ret ("", some (.new ("no interfaces found for vm " ++ d.MachineName)))) ∧
      (∀ vmi i rest, env.vmiGet (tr ++ [Event.vmGet d.Namespace d.MachineName,
          Event.vmiGet d.Namespace d.MachineName]) = .ok vmi →
        vmi.Status.Interfaces = i :: rest →
        (GetSSHHostname env d tr).val = .ret (i.IP, none))) := by
  obtain ⟨h1, h2, h3, h4⟩ := GetSSHHostname_spec_aux env d tr
  refine ⟨rfl, GetSSHHostname_no_panic env d tr, ?_, ?_, ?_⟩
  · intro s e hv
    by_cases hc : (client env d).1 = none
    · rw [h2 s e hc hv]
    · rw [h1 hc]
      rw [GetState_client_err env d tr hc] at hv
      simp only [Prod.mk.injEq] at hv
      rw [hv.2]
  · intro s hv hs
    rw [h3 s hv hs]
  · intro hv
    rw [h4 hv]
    refine ⟨?_, ?_, ?_⟩
    · intro err he
      rw [he]
    · intro vmi he hi
      rw [he]
      simp only [hi]
    · intro vmi i rest he hi
      rw [he]
      simp only [hi]

/-- C7 on a running machine whose first interface reports 10.0.0.7. -/
theorem GetIP_GetSSHHostname_witness :
    (GetSSHHostname envRunning drv []).val = .ret ("10.0.0.7", none) :=
  ((GetIP_GetSSHHostname envRunning drv []).2.2.2.2 rfl).2.2
    { Status := { Interfaces := [⟨"10.0.0.7"⟩] } } ⟨"10.0.0.7"⟩ [] rfl rfl

/-- C8 as stated fails: an address with a percent sign and no colon is not bracketed. -/
theorem GetURL_percent_counterexample :
    (GetSSHHostname envPercent drv []).val = .ret ("10.0.0.7%eth0", none) ∧
    '%' ∈ "10.0.0.7%eth0".toList ∧
    (GetURL envPercent drv []).val = .ret ("tcp://10.0.0.7%eth0:2376", none) ∧
    (GetURL envPercent drv []).val ≠ .ret ("tcp://[10.0.0.7%eth0]:2376", none) := by
  decide

/-- C8, amended: `GetURL` fails exactly when `GetSSHHostname` fails, with that error and the
empty string; otherwise, for the address `ip` that `GetSSHHostname` returns, it returns
`tcp://ip:2376` when `ip` holds no colon and `tcp://[ip]:2376` when it holds one. -/
theorem GetURL_result (env : Env) (d : Driver) (tr : List Event) :
    (∀ msg, (GetURL env d tr).val ≠ .panic msg) ∧
    ((∃ u e, (GetURL env d tr).val = .ret (u, some e)) ↔
      (∃ s e, (GetSSHHostname env d tr).val = .ret (s, some e))) ∧
    (∀ s e, (GetSSHHostname env d tr).val = .ret (s, some e) →
      (GetURL env d tr).val = .ret ("", some e)) ∧
    (∀ ip, (GetSSHHostname env d tr).val = .ret (ip, none) →
      (':' ∉ ip.toList → (GetURL env d tr).val = .ret ("tcp://" ++ ip ++ ":2376", none)) ∧
      (':' ∈ ip.toList →
        (GetURL env d tr).val = .ret ("tcp://[" ++ ip ++ "]:2376", none))) := by
  have hnp := GetSSHHostname_no_panic env d tr
  unfold GetURL
  rcases hg : GetSSHHostname env d tr with ⟨v, d', tr'⟩
  rw [hg] at hnp
  rcases v with ⟨ip, _ | e⟩ | msg
  · refine ⟨by simp, by simp, by simp, ?_⟩
    intro ip' hip
    simp only [Outcome.ret.injEq, Prod.mk.injEq, and_true] at hip
    subst hip
    constructor
    · intro hcolon
      have hdata : ':' ∉ ip.data := hcolon
      simp [JoinHostPort, hdata, String.append_assoc]
    · intro hcolon
      have hdata : ':' ∈ ip.data := hcolon
      have hlit : "tcp://" ++ "[" = "tcp://[" := by decide
      simp [JoinHostPort, hdata, String.append_assoc]
      rw [← String.append_assoc, hlit]
  · refine ⟨by simp, by simp, by simp, by simp⟩
  · exact absurd rfl (hnp msg)

/-- C8, amended, on a running machine whose first interface reports 10.0.0.7. -/
theorem GetURL_result_witness :
    (GetURL envRunning drv []).val = .ret ("tcp://" ++ "10.0.0.7" ++ ":2376", none) :=
  ((GetURL_result envRunning drv []).2.2.2 "10.0.0.7" rfl).1 (by decide)

/-! ## Remove -/

/-- C6 as stated fails: when the machine is running and the Stop is rejected, `Remove` stops
there and issues neither delete. -/
theorem Remove_stop_failure_counterexample :
    (GetState envStopFails drv []).val = (State.Running, none) ∧
    (Remove envStopFails drv []).trace =
      [Event.vmGet "default" "m", Event.vmStop "default" "m" (some 0)] ∧
    Event.vmDelete "default" "m" ∉ (Remove envStopFails drv []).trace ∧
    Event.secretDelete "default" "m-ssh" ∉ (Remove envStopFails drv []).trace ∧
    (Remove envStopFails drv []).val = some errForbidden := by
  decide

/-- C6, amended: after a `GetState` that returns state `st` and a nil error, `Remove` issues a
Stop with grace period 0 if and only if `st` is Running; if that Stop fails it returns the
Stop's error and issues no delete; otherwise it deletes the VirtualMachine `d.MachineName`,
returns that delete's error if it is an error other than NotFound, and otherwise deletes the
Secret `d.MachineName` followed by `-ssh`, all in `d.Namespace`, and returns that delete's
error if it is an error other than NotFound. It returns nil exactly when the Stop (if issued)
succeeded and each of the two deletes succeeded or answered NotFound; in particular it returns
nil when the lookup and both deletes answer NotFound. -/
theorem Remove_calls (env : Env) (d : Driver) (tr t1 t2 t3 : List Event) (st : State)
    (hst : (GetState env d tr).val = (st, none))
    (h1 : t1 = tr ++ Event.vmGet d.Namespace d.MachineName ::
      (if st = State.Running then [Event.vmStop d.Namespace d.MachineName (some 0)] else []))
    (h2 : t2 = t1 ++ [Event.vmDelete d.Namespace d.MachineName])
    (h3 : t3 = t2 ++ [Event.secretDelete d.Namespace (d.MachineName ++ "-ssh")]) :
    (Event.vmStop d.Namespace d.MachineName (some 0) ∈ issued tr (Remove env d tr) ↔
      st = State.Running) ∧
    (∀ ns name grace, Event.vmStop ns name grace ∈ issued tr (Remove env d tr) →
      st = State.Running) ∧
    (Remove env d tr).trace =
      (if st = State.Running ∧ env.vmStop t1 ≠ none then t1
        else if ¬ okOrNotFound (env.vmDelete t2) then t2 else t3) ∧
    (Remove env d tr).val =
      (if st = State.Running ∧ env.vmStop t1 ≠ none then env.vmStop t1
        else if ¬ okOrNotFound (env.vmDelete t2) then env.vmDelete t2
        else if ¬ okOrNotFound (env.secretDelete t3) then env.secretDelete t3
        else none) ∧
    (∀ e, st = State.Running → env.vmStop t1 = some e →
      (Remove env d tr).val = some e ∧ (Remove env d tr).trace = t1) ∧
    sshSecretName d.MachineName = d.MachineName ++ "-ssh" ∧
    ((Remove env d tr).val = none ↔
      (st = State.Running → env.vmStop t1 = none) ∧ okOrNotFound (env.vmDelete t2) ∧
        okOrNotFound (env.secretDelete t3)) ∧
    (∀ e, env.vmGet (tr ++ [Event.vmGet d.Namespace d.MachineName]) = .error e →
      IsNotFound e = true → IsNotFoundErr (env.vmDelete t2) = true →
      IsNotFoundErr (env.secretDelete t3) = true → (Remove env d tr).val = none) := by
  obtain ⟨htrace, hval⟩ := Remove_spec_aux env d tr t1 t2 t3 st hst h1 h2 h3
  have hret := Remove_val_aux env d tr t1 t2 t3 st hst h1 h2 h3
  have hstop : ∀ e, st = State.Running → env.vmStop t1 = some e →
      (Remove env d tr).val = some e ∧ (Remove env d tr).trace = t1 := by
    intro e hR he
    rw [hret, htrace]
    simp [hR, he]
  have hiss : issued tr (Remove env d tr) =
      Event.vmGet d.Namespace d.MachineName ::
        ((if st = State.Running then [Event.vmStop d.Namespace d.MachineName (some 0)]
            else []) ++
          (if st = State.Running ∧ env.vmStop t1 ≠ none then []
            else if ¬ okOrNotFound (env.vmDelete t2) then
              [Event.vmDelete d.Namespace d.MachineName]
            else [Event.vmDelete d.Namespace d.MachineName,
              Event.secretDelete d.Namespace (d.MachineName ++ "-ssh")])) := by
    unfold issued
    rw [htrace, h3, h2, h1]
    split_ifs <;> simp
  refine ⟨?_, ?_, htrace, hret, hstop, rfl, hval, ?_⟩
  · rw [hiss]
    by_cases hR : st = State.Running
    · simp [hR]
    · simp only [hR, if_false, false_and, List.nil_append, iff_false]
      split_ifs <;> simp
  · intro ns name grace hmem
    rw [hiss] at hmem
    by_contra hR
    simp only [hR, if_false, false_and, List.nil_append] at hmem
    split_ifs at hmem <;> simp at hmem
  · intro e hget hnf hd hs
    obtain ⟨hc, hg⟩ := GetState_of_val env d tr st hst
    have hst' : st = State.None := by
      rw [GetState_eq env d tr hc, hget] at hg
      simp only [hnf, if_true] at hg
      have := congrArg (fun r => r.val.1) hg
      exact this.symm
    rw [hval]
    refine ⟨fun hR => ?_, ?_, ?_⟩
    · rw [hst'] at hR
      cases hR
    · cases hv : env.vmDelete t2 with
      | none => rfl
      | some e' =>
        rw [hv] at hd
        exact hd
    · cases hv : env.secretDelete t3 with
      | none => rfl
      | some e' =>
        rw [hv] at hs
        exact hs

/-- C6, amended, on a machine whose VirtualMachine and Secret are both absent: `Remove`
returns nil. -/
theorem Remove_calls_witness : (Remove envAbsent drv []).val = none :=
  (Remove_calls envAbsent drv []
    [Event.vmGet "default" "m"]
    [Event.vmGet "default" "m", Event.vmDelete "default" "m"]
    [Event.vmGet "default" "m", Event.vmDelete "default" "m",
      Event.secretDelete "default" "m-ssh"]
    State.None (by decide) (by decide) (by decide) (by decide)).2.2.2.2.2.2.2
    errNotFound rfl rfl rfl rfl

/-! ## The number of API calls of each method -/

/-- `Remove` issues between one and four API calls. -/
theorem Remove_apiCalls (env : Env) (d : Driver) (tr : List Event)
    (hc : (client env d).1 = none) :
    1 ≤ apiCalls (issued tr (Remove env d tr)) ∧ apiCalls (issued tr (Remove env d tr)) ≤ 4 := by
  rcases hv : (GetState env d tr).val with ⟨s, _ | e⟩
  · obtain ⟨htrace, -⟩ := Remove_spec_aux env d tr _ _ _ s hv rfl rfl rfl
    unfold issued
    rw [htrace]
    split_ifs <;> simp [apiCalls, Event.isAPICall, List.filter_cons]
  · rw [Remove_getState_err env d tr s e hc hv]
    simp [issued, apiCalls, Event.isAPICall, List.filter_cons]

/-- `GetSSHHostname` issues one or two API calls. -/
theorem GetSSHHostname_apiCalls (env : Env) (d : Driver) (tr : List Event)
    (hc : (client env d).1 = none) :
    1 ≤ apiCalls (issued tr (GetSSHHostname env d tr)) ∧
      apiCalls (issued tr (GetSSHHostname env d tr)) ≤ 2 := by
  obtain ⟨-, h2, h3, h4⟩ := GetSSHHostname_spec_aux env d tr
  rcases hv : (GetState env d tr).val with ⟨s, _ | e⟩
  · by_cases hs : s = State.Running
    · subst hs
      rw [h4 hv]
      cases env.vmiGet (tr ++ [Event.vmGet d.Namespace d.MachineName,
          Event.vmiGet d.Namespace d.MachineName]) with
      | error err => simp [issued, apiCalls, Event.isAPICall, List.filter_cons]
      | ok vmi =>
        simp only
        cases vmi.Status.Interfaces <;>
          simp [issued, apiCalls, Event.isAPICall, List.filter_cons]
    · rw [h3 s hv hs]
      simp [issued, apiCalls, Event.isAPICall, List.filter_cons]
  · rw [h2 s e hc hv]
    simp [issued, apiCalls, Event.isAPICall, List.filter_cons]

/-- C3 as stated fails: with a client, a successful `Create` issues three API calls and a
`Remove` of a running machine issues four. -/
theorem apiCalls_counterexample :
    (client (envOk (.error errNotFound) (.ok {})) drv).1 = none ∧
    apiCalls (issued [] (Create (envOk (.error errNotFound) (.ok {})) drv [])) = 3 ∧
    (client envRunning drv).1 = none ∧
    apiCalls (issued [] (Remove envRunning drv [])) = 4 := by
  decide

/-- C3, amended: once the client is available, `Start`, `Stop`, `Kill`, `Restart` and
`GetState` issue exactly one API call, `GetSSHHostname` and `GetIP` issue one or two, and
`Create` and `Remove` issue at least one and at most four. -/
theorem apiCalls_bounds (env : Env) (d : Driver) (tr : List Event)
    (hc : (client env d).1 = none) :
    apiCalls (issued tr (Start env d tr)) = 1 ∧
    apiCalls (issued tr (Stop env d tr)) = 1 ∧
    apiCalls (issued tr (Kill env d tr)) = 1 ∧
    apiCalls (issued tr (Restart env d tr)) = 1 ∧
    apiCalls (issued tr (GetState env d tr)) = 1 ∧
    (1 ≤ apiCalls (issued tr (GetSSHHostname env d tr)) ∧
      apiCalls (issued tr (GetSSHHostname env d tr)) ≤ 2) ∧
    (1 ≤ apiCalls (issued tr (GetIP env d tr)) ∧
      apiCalls (issued tr (GetIP env d tr)) ≤ 2) ∧
    (1 ≤ apiCalls (issued tr (Create env d tr)) ∧
      apiCalls (issued tr (Create env d tr)) ≤ 4) ∧
    (1 ≤ apiCalls (issued tr (Remove env d tr)) ∧
      apiCalls (issued tr (Remove env d tr)) ≤ 4) := by
  refine ⟨?_, ?_, ?_, ?_, ?_, GetSSHHostname_apiCalls env d tr hc,
    GetSSHHostname_apiCalls env d tr hc, Create_apiCalls env d tr hc,
    Remove_apiCalls env d tr hc⟩
  · unfold Start
    rw [client_ok env d hc]
    simp [issued, apiCalls, Event.isAPICall, List.filter_cons]
  · unfold Stop
    rw [client_ok env d hc]
    simp [issued, apiCalls, Event.isAPICall, List.filter_cons]
  · unfold Kill
    rw [client_ok env d hc]
    simp [issued, apiCalls, Event.isAPICall, List.filter_cons]
  · unfold Restart
    rw [client_ok env d hc]
    simp [issued, apiCalls, Event.isAPICall, List.filter_cons]
  · rw [GetState_of_client env d tr hc]
    simp [issued, apiCalls, Event.isAPICall, List.filter_cons]

/-- C3, amended, on the driver `drv` and a running machine. -/
theorem apiCalls_bounds_witness :
    (client envRunning drv).1 = none ∧
    apiCalls (issued [] (Remove envRunning drv [])) ≤ 4 :=
  ⟨by decide, (apiCalls_bounds envRunning drv [] (by decide)).2.2.2.2.2.2.2.2.2⟩

/-! ## The objects built by `makeVM` and `makeSSHSecret` -/

/-- C10: in `makeVM namespace name image cpus mem` the one SSH access credential names, as
its Secret, the Name of `makeSSHSecret namespace name key`, the two objects carry the same
Namespace, every disk carries the name of a volume and every interface the name of a
network. -/
theorem makeVM_references_resolve (ns name image key : String) (cpus : Nat) (mem : Quantity) :
    ∃ tmpl, (makeVM ns name image cpus mem).Spec.Template = some tmpl ∧
      tmpl.Spec.AccessCredentials.map
          (fun c => c.SSHPublicKey.bind (fun k => k.Source.Secret.map (fun r => r.SecretName)))
        = [some (makeSSHSecret ns name key).ObjectMeta.Name] ∧
      (makeVM ns name image cpus mem).ObjectMeta.Namespace
        = (makeSSHSecret ns name key).ObjectMeta.Namespace ∧
      tmpl.Spec.Domain.Devices.Disks ≠ [] ∧
      (∀ disk ∈ tmpl.Spec.Domain.Devices.Disks, ∃ v ∈ tmpl.Spec.Volumes, v.Name = disk.Name) ∧
      tmpl.Spec.Domain.Devices.Interfaces ≠ [] ∧
      (∀ iface ∈ tmpl.Spec.Domain.Devices.Interfaces,
        ∃ n ∈ tmpl.Spec.Networks, n.Name = iface.Name) := by
  refine ⟨_, rfl, rfl, rfl, by simp, ?_, by simp, ?_⟩
  · intro disk hdisk
    simp only [List.mem_singleton] at hdisk
    subst hdisk
    exact ⟨_, List.mem_singleton.mpr rfl, rfl⟩
  · intro iface hiface
    simp only [List.mem_singleton] at hiface
    subst hiface
    exact ⟨_, List.mem_singleton.mpr rfl, rfl⟩

end KubevirtDriver
